import Mathlib

/-!
Shallow embedding of the Subscription reconciler
(pkg/reconciler/subscription/subscription.go) of the eventing repository.

External collaborators (resource store, dependency tracker, destination
resolver, dynamic patch client) are modelled as oracle functions carried in
an explicit environment record; the reconciler functions themselves are
translated directly from the Go source. URIs are strings, machine integers
are Int, and the JSON merge patch produced by duck.CreateMergePatch is
modelled structurally: the patch is empty exactly when the two embedded
values are equal.
-/

set_option autoImplicit false

namespace Eventing

/-- Event reasons used by the reconciler (constants at the top of the Go file). -/
def subscriptionUpdateStatusFailed : String := "UpdateFailed"

def physicalChannelSyncFailed : String := "PhysicalChannelSyncFailed"

def subscriptionNotMarkedReadyByChannel : String := "SubscriptionNotMarkedReadyByChannel"

def channelReferenceFailed : String := "ChannelReferenceFailed"

def subscriberResolveFailed : String := "SubscriberResolveFailed"

def replyResolveFailed : String := "ReplyResolveFailed"

def deadLetterSinkResolveFailed : String := "DeadLetterSinkResolveFailed"

/-- Group of v1ChannelGVK = messaging.knative.dev/v1 Kind Channel. -/
def v1ChannelGVKGroup : String := "messaging.knative.dev"

/-- Kind of v1ChannelGVK. -/
def v1ChannelGVKKind : String := "Channel"

/-- Typed object reference (duckv1.KReference, restricted to the fields the
reconciler reads). -/
structure KRef where
  kind : String
  namespace_ : String
  name : String
  apiVersion : String
deriving DecidableEq

/-- Destination: either a typed reference or a direct URI; both absent means
the empty destination (duckv1.Destination). -/
structure Destination where
  ref : Option KRef
  uri : Option String
deriving DecidableEq

/-- isNilOrEmptyDestination from the source: nil, or semantically equal to the
zero Destination. -/
def isNilOrEmptyDestination (destination : Option Destination) : Bool :=
  match destination with
  | none => true
  | some d => d = { ref := none, uri := none }

/-- DeliverySpec (eventingduckv1.DeliverySpec): dead letter sink plus the five
retry related fields, all independently optional. -/
structure DeliverySpec where
  deadLetterSink : Option Destination
  retry : Option Int
  backoffPolicy : Option String
  backoffDelay : Option String
  timeout : Option String
  retryAfterMax : Option String
deriving DecidableEq

/-- The zero DeliverySpec value. -/
def emptyDeliverySpec : DeliverySpec :=
  { deadLetterSink := none, retry := none, backoffPolicy := none,
    backoffDelay := none, timeout := none, retryAfterMax := none }

/-- SubscriberSpec: one entry of the Channel subscriber list. -/
structure SubscriberSpec where
  uid : String
  generation : Int
  subscriberURI : Option String
  replyURI : Option String
  delivery : Option DeliverySpec
deriving DecidableEq

/-- Three valued readiness of a condition (corev1.ConditionStatus). -/
inductive ReadyState where
  | conditionTrue
  | conditionFalse
  | conditionUnknown
deriving DecidableEq

/-- SubscriberStatus: per subscriber status entry reported by the Channel. -/
structure SubscriberStatus where
  uid : String
  observedGeneration : Int
  ready : ReadyState
  message : String
deriving DecidableEq

/-- Spec part of a Channelable. -/
structure ChannelableSpec where
  subscribers : List SubscriberSpec
  delivery : Option DeliverySpec
deriving DecidableEq

/-- Status part of a Channelable. -/
structure ChannelableStatus where
  subscribers : List SubscriberStatus
  deadLetterSinkURI : Option String
deriving DecidableEq

/-- Channelable duck type: the capability the reconciler patches. -/
structure Channelable where
  name : String
  spec : ChannelableSpec
  status : ChannelableStatus
deriving DecidableEq

/-- Condition value on the Subscription status. Modelled from the spec: the
lifecycle helpers (MarkReferencesResolved, MarkChannelReady, MarkAddedToChannel
and their False and Unknown variants) live outside the reconciler source; each
records a three valued state together with the machine readable reason.
Human readable messages are elided. -/
inductive Cond where
  | condTrue
  | condFalse (reason : String)
  | condUnknown (reason : String)
deriving DecidableEq

/-- physicalSubscription block of the Subscription status. -/
structure PhysicalSubscription where
  subscriberURI : Option String
  replyURI : Option String
  deadLetterSinkURI : Option String
deriving DecidableEq

/-- Subscription status: the three conditions the reconciler manipulates plus
the physicalSubscription URIs. -/
structure SubscriptionStatus where
  physicalSubscription : PhysicalSubscription
  referencesResolved : Cond
  channelReady : Cond
  addedToChannel : Cond
deriving DecidableEq

/-- Subscription spec fields read by the reconciler. -/
structure SubscriptionSpec where
  channel : KRef
  subscriber : Option Destination
  reply : Option Destination
  delivery : Option DeliverySpec
deriving DecidableEq

/-- Subscription resource. deletionTimestampIsZero embeds
DeletionTimestamp.IsZero(): true when the object is not pending deletion. -/
structure Subscription where
  name : String
  namespace_ : String
  uid : String
  generation : Int
  deletionTimestampIsZero : Bool
  spec : SubscriptionSpec
  status : SubscriptionStatus
deriving DecidableEq

/-- Errors surfaced while locating the channel (apierrors and fmt.Errorf
values; notFound is the class recognised by apierrors.IsNotFound). -/
inductive ChanErr where
  | notFound
  | otherErr (msg : String)
  | groupErr (msg : String)
  | trackerFailed (msg : String)
  | notReady
  | notChannelable
deriving DecidableEq

/-- Errors returned by the dynamic patch client. -/
inductive PatchErr where
  | notFound
  | other (msg : String)
deriving DecidableEq

/-- Event type of a pkgreconciler.Event. -/
inductive EventType where
  | warning
  | normal
deriving DecidableEq

/-- Result value of a reconciler pass: either a pkgreconciler.NewEvent with a
type and reason, or a raw error propagated unchanged (as FinalizeKind does for
channel location failures). -/
inductive REvent where
  | evt (etype : EventType) (reason : String)
  | rawErr (e : ChanErr)
deriving DecidableEq

/-- Object returned by the duck typed fetch: its group version kind plus, when
it is one, the Channelable view of it. -/
structure FetchedObj where
  gvkGroup : String
  gvkKind : String
  asChannelable : Option Channelable
deriving DecidableEq

/-- Typed messaging Channel as returned by the channelLister: its readiness
and the published backing channel pointer (Status.Channel). -/
structure TypedChannel where
  statusIsReady : Bool
  statusChannel : Option KRef
deriving DecidableEq

/-- Environment of oracle functions standing for the external collaborators:
the duck typed track plus fetch, the typed tracker registration, the typed
channel lister, the feature gate and group resolver, the destination resolver,
and the dynamic patch client outcome. -/
structure Env where
  trackAndFetch : KRef → Except ChanErr FetchedObj
  trackReference : Except ChanErr Unit
  channelLister : String → Except ChanErr TypedChannel
  featureKRefGroup : Bool
  resolveGroup : KRef → Except String KRef
  resolveDest : Destination → Except String String
  resourceClientErr : Option String
  patchResult : Except PatchErr Unit

/-! Status mark helpers. Modelled from the spec: condition setters of the
Subscription status living in the messaging lifecycle package outside the
reconciler source; each sets exactly one condition. -/

/-- MarkReferencesResolvedUnknown. -/
def markReferencesResolvedUnknown (sub : Subscription) (reason : String) : Subscription :=
  { sub with status := { sub.status with referencesResolved := Cond.condUnknown reason } }

/-- MarkReferencesNotResolved. -/
def markReferencesNotResolved (sub : Subscription) (reason : String) : Subscription :=
  { sub with status := { sub.status with referencesResolved := Cond.condFalse reason } }

/-- MarkReferencesResolved. -/
def markReferencesResolved (sub : Subscription) : Subscription :=
  { sub with status := { sub.status with referencesResolved := Cond.condTrue } }

/-- MarkChannelReady. -/
def markChannelReady (sub : Subscription) : Subscription :=
  { sub with status := { sub.status with channelReady := Cond.condTrue } }

/-- MarkChannelUnknown. -/
def markChannelUnknown (sub : Subscription) (reason : String) : Subscription :=
  { sub with status := { sub.status with channelReady := Cond.condUnknown reason } }

/-- MarkChannelFailed. -/
def markChannelFailed (sub : Subscription) (reason : String) : Subscription :=
  { sub with status := { sub.status with channelReady := Cond.condFalse reason } }

/-- MarkAddedToChannel. -/
def markAddedToChannel (sub : Subscription) : Subscription :=
  { sub with status := { sub.status with addedToChannel := Cond.condTrue } }

/-- MarkNotAddedToChannel. -/
def markNotAddedToChannel (sub : Subscription) (reason : String) : Subscription :=
  { sub with status := { sub.status with addedToChannel := Cond.condFalse reason } }

/-- Status.IsAddedToChannel: the AddedToChannel condition is True. -/
def isAddedToChannel (sub : Subscription) : Bool :=
  sub.status.addedToChannel = Cond.condTrue

/-- Helper updating physicalSubscription.subscriberURI. -/
def setSubscriberURI (sub : Subscription) (u : Option String) : Subscription :=
  { sub with status := { sub.status with
      physicalSubscription := { sub.status.physicalSubscription with subscriberURI := u } } }

/-- Helper updating physicalSubscription.replyURI. -/
def setReplyURI (sub : Subscription) (u : Option String) : Subscription :=
  { sub with status := { sub.status with
      physicalSubscription := { sub.status.physicalSubscription with replyURI := u } } }

/-- Helper updating physicalSubscription.deadLetterSinkURI. -/
def setDeadLetterSinkURI (sub : Subscription) (u : Option String) : Subscription :=
  { sub with status := { sub.status with
      physicalSubscription := { sub.status.physicalSubscription with deadLetterSinkURI := u } } }

/-- deliverySpec from the source: the effective delivery policy published on
the SubscriberSpec, merging Subscription overrides with Channel defaults. -/
def deliverySpec (sub : Subscription) (channel : Channelable) : Option DeliverySpec :=
  if sub.spec.delivery = none ∧ channel.spec.delivery ≠ none then
    match channel.spec.delivery with
    | none => none
    | some chd =>
      let d1 : Option DeliverySpec :=
        match sub.status.physicalSubscription.deadLetterSinkURI with
        | some u =>
          some { emptyDeliverySpec with deadLetterSink := some { ref := none, uri := some u } }
        | none => none
      if chd.backoffDelay ≠ none ∨ chd.retry ≠ none ∨ chd.backoffPolicy ≠ none ∨
          chd.timeout ≠ none ∨ chd.retryAfterMax ≠ none then
        let base := d1.getD emptyDeliverySpec
        some { base with
               backoffPolicy := chd.backoffPolicy, retry := chd.retry,
               backoffDelay := chd.backoffDelay, timeout := chd.timeout,
               retryAfterMax := chd.retryAfterMax }
      else
        d1
  else
    let d1 : Option DeliverySpec :=
      match sub.status.physicalSubscription.deadLetterSinkURI with
      | some u =>
        some { emptyDeliverySpec with deadLetterSink := some { ref := none, uri := some u } }
      | none => none
    match sub.spec.delivery with
    | some sd =>
      if sd.backoffDelay ≠ none ∨ sd.retry ≠ none ∨ sd.backoffPolicy ≠ none ∨
          sd.timeout ≠ none ∨ sd.retryAfterMax ≠ none then
        let base := d1.getD emptyDeliverySpec
        some { base with
               backoffPolicy := sd.backoffPolicy, retry := sd.retry,
               backoffDelay := sd.backoffDelay, timeout := sd.timeout,
               retryAfterMax := sd.retryAfterMax }
      else
        d1
    | none => d1

/-- The SubscriberSpec entry desired for a Subscription (the toAdd literal of
updateChannelAddSubscription, whose fields the in place update also writes). -/
def desiredEntry (sub : Subscription) (d : Option DeliverySpec) : SubscriberSpec :=
  { uid := sub.uid, generation := sub.generation,
    subscriberURI := sub.status.physicalSubscription.subscriberURI,
    replyURI := sub.status.physicalSubscription.replyURI,
    delivery := d }

/-- Loop body of updateChannelAddSubscription: update the first entry whose
uid matches in place, otherwise append the desired entry at the end. -/
def addSubscriber (sub : Subscription) (d : Option DeliverySpec) :
    List SubscriberSpec → List SubscriberSpec
  | [] => [desiredEntry sub d]
  | v :: rest =>
    if v.uid = sub.uid then
      { v with
        generation := sub.generation,
        subscriberURI := sub.status.physicalSubscription.subscriberURI,
        replyURI := sub.status.physicalSubscription.replyURI,
        delivery := d } :: rest
    else
      v :: addSubscriber sub d rest

/-- updateChannelAddSubscription from the source. -/
def updateChannelAddSubscription (channel : Channelable) (sub : Subscription) : Channelable :=
  { channel with spec := { channel.spec with
      subscribers := addSubscriber sub (deliverySpec sub channel) channel.spec.subscribers } }

/-- Loop body of updateChannelRemoveSubscription: delete the first entry whose
uid matches; no op when absent. -/
def removeSubscriber (uid : String) : List SubscriberSpec → List SubscriberSpec
  | [] => []
  | v :: rest => if v.uid = uid then rest else v :: removeSubscriber uid rest

/-- updateChannelRemoveSubscription from the source. -/
def updateChannelRemoveSubscription (channel : Channelable) (sub : Subscription) : Channelable :=
  { channel with spec := { channel.spec with
      subscribers := removeSubscriber sub.uid channel.spec.subscribers } }

/-- Outcome of patchSubscription: the (patched, error) pair it returns, plus
whether a patch write was actually issued against the resource client. -/
structure PatchOutcome where
  patched : Bool
  err : Option PatchErr
  wrote : Bool
deriving DecidableEq

/-- patchSubscription from the source: build the working copy (add or remove
depending on the deletion timestamp), compute the merge patch between the
original and the copy; an empty patch issues no write and reports no change,
otherwise the patch is applied through the dynamic client. The JSON merge
patch of duck.CreateMergePatch is empty exactly when the two values are
structurally equal. -/
def patchSubscription (env : Env) (channel : Channelable) (sub : Subscription) : PatchOutcome :=
  let after :=
    if sub.deletionTimestampIsZero then updateChannelAddSubscription channel sub
    else updateChannelRemoveSubscription channel sub
  if after = channel then
    { patched := false, err := none, wrote := false }
  else
    match env.resourceClientErr with
    | some msg => { patched := false, err := some (PatchErr.other msg), wrote := false }
    | none =>
      match env.patchResult with
      | Except.error e => { patched := false, err := some e, wrote := true }
      | Except.ok _ => { patched := true, err := none, wrote := true }

/-- syncPhysicalChannel from the source: run patchSubscription; a not found
patch error is swallowed (treated as converged) only when isDeleted is true,
every other error propagates. -/
def syncPhysicalChannel (env : Env) (sub : Subscription) (channel : Channelable)
    (isDeleted : Bool) : PatchOutcome :=
  let o := patchSubscription env channel sub
  match o.err with
  | some e =>
    if isDeleted ∧ e = PatchErr.notFound then
      { patched := false, err := none, wrote := o.wrote }
    else
      { patched := o.patched, err := some e, wrote := o.wrote }
  | none => o

/-- syncChannel from the source: always invokes syncPhysicalChannel with
isDeleted set to false; a failure marks the Subscription not added to the
channel and returns a PhysicalChannelSyncFailed warning; a successful patch
returns a Normal event, and on the active path (deletion timestamp unset) the
Subscription is marked added to the channel whether or not a patch was
needed. -/
def syncChannel (env : Env) (channel : Channelable) (sub : Subscription) :
    Subscription × Option REvent :=
  let o := syncPhysicalChannel env sub channel false
  match o.err with
  | some _ =>
    (markNotAddedToChannel sub physicalChannelSyncFailed,
     some (REvent.evt EventType.warning physicalChannelSyncFailed))
  | none =>
    if o.patched then
      if sub.deletionTimestampIsZero then
        (markAddedToChannel sub, some (REvent.evt EventType.normal "SubscriberSync"))
      else
        (sub, some (REvent.evt EventType.normal "SubscriberRemoved"))
    else
      if sub.deletionTimestampIsZero then (markAddedToChannel sub, none)
      else (sub, none)

/-- resolveSubscriber from the source: a nil or empty subscriber destination
clears the status URI and succeeds; otherwise the destination (after webhook
compatible defaulting, folded into the resolver oracle) is group resolved when
the feature gate is on and then passed to the destination resolver; failures
mark references not resolved with SubscriberResolveFailed; on success the
status URI is updated when it changed. -/
def resolveSubscriber (env : Env) (sub : Subscription) : Subscription × Option REvent :=
  let subscriber := sub.spec.subscriber
  if isNilOrEmptyDestination subscriber = false then
    match subscriber with
    | none => (sub, none)
    | some dst =>
      let dstE : Except String Destination :=
        if dst.ref ≠ none ∧ env.featureKRefGroup then
          match dst.ref with
          | some r =>
            match env.resolveGroup r with
            | Except.error e => Except.error e
            | Except.ok r2 => Except.ok { dst with ref := some r2 }
          | none => Except.ok dst
        else Except.ok dst
      match dstE with
      | Except.error _ =>
        (markReferencesNotResolved sub subscriberResolveFailed,
         some (REvent.evt EventType.warning subscriberResolveFailed))
      | Except.ok dst2 =>
        match env.resolveDest dst2 with
        | Except.error _ =>
          (markReferencesNotResolved sub subscriberResolveFailed,
           some (REvent.evt EventType.warning subscriberResolveFailed))
        | Except.ok uri =>
          let sub2 :=
            if sub.status.physicalSubscription.subscriberURI = none ∨
                sub.status.physicalSubscription.subscriberURI ≠ some uri then
              setSubscriberURI sub (some uri)
            else sub
          (sub2, none)
  else
    (setSubscriberURI sub none, none)

/-- resolveReply from the source: same shape as resolveSubscriber but with no
group resolution step and the ReplyResolveFailed reason. -/
def resolveReply (env : Env) (sub : Subscription) : Subscription × Option REvent :=
  let reply := sub.spec.reply
  if isNilOrEmptyDestination reply = false then
    match reply with
    | none => (sub, none)
    | some dst =>
      match env.resolveDest dst with
      | Except.error _ =>
        (markReferencesNotResolved sub replyResolveFailed,
         some (REvent.evt EventType.warning replyResolveFailed))
      | Except.ok uri =>
        let sub2 :=
          if sub.status.physicalSubscription.replyURI = none ∨
              sub.status.physicalSubscription.replyURI ≠ some uri then
            setReplyURI sub (some uri)
          else sub
        (sub2, none)
  else
    (setReplyURI sub none, none)

/-- Dead letter destination declared by the Subscription itself
(Spec.Delivery and Spec.Delivery.DeadLetterSink both non nil). -/
def subDeclaredDLS (sub : Subscription) : Option Destination :=
  match sub.spec.delivery with
  | some sd => sd.deadLetterSink
  | none => none

/-- Channel fallback part of resolveDeadLetterSink: when the Channel declares
a default dead letter sink, copy the URI the Channel already resolved into its
status, or fail with DeadLetterSinkResolveFailed when the Channel has not
published one; with no declaration anywhere the status URI is cleared. -/
def resolveDeadLetterSinkFromChannel (sub : Subscription) (channel : Channelable) :
    Subscription × Option REvent :=
  match channel.spec.delivery with
  | some chd =>
    if chd.deadLetterSink ≠ none then
      match channel.status.deadLetterSinkURI with
      | some u => (setDeadLetterSinkURI sub (some u), none)
      | none =>
        (markReferencesNotResolved (setDeadLetterSinkURI sub none) deadLetterSinkResolveFailed,
         some (REvent.evt EventType.warning deadLetterSinkResolveFailed))
    else
      (setDeadLetterSinkURI sub none, none)
  | none => (setDeadLetterSinkURI sub none, none)

/-- resolveDeadLetterSink from the source: a dead letter sink declared on the
Subscription is resolved first and a failure there is final (no fallback);
otherwise fall back to the URI the Channel resolved into its own status. -/
def resolveDeadLetterSink (env : Env) (sub : Subscription) (channel : Channelable) :
    Subscription × Option REvent :=
  match subDeclaredDLS sub with
  | some dls =>
    match env.resolveDest dls with
    | Except.error _ =>
      (markReferencesNotResolved (setDeadLetterSinkURI sub none) deadLetterSinkResolveFailed,
       some (REvent.evt EventType.warning deadLetterSinkResolveFailed))
    | Except.ok uri => (setDeadLetterSinkURI sub (some uri), none)
  | none => resolveDeadLetterSinkFromChannel sub channel

/-- resolveSubscriptionURIs from the source: mark resolution in progress, run
the three resolvers in order short circuiting on the first failure, then mark
references resolved. -/
def resolveSubscriptionURIs (env : Env) (sub : Subscription) (channel : Channelable) :
    Subscription × Option REvent :=
  let s0 := markReferencesResolvedUnknown sub "Resolving"
  let r1 := resolveSubscriber env s0
  match r1.snd with
  | some e => (r1.fst, some e)
  | none =>
    let r2 := resolveReply env r1.fst
    match r2.snd with
    | some e => (r2.fst, some e)
    | none =>
      let r3 := resolveDeadLetterSink env r2.fst channel
      match r3.snd with
      | some e => (r3.fst, some e)
      | none => (markReferencesResolved r3.fst, none)

/-- getSubStatus from the source: the first per subscriber status entry whose
uid equals the Subscription UID and whose observedGeneration equals the
current generation; no such entry is an error. -/
def getSubStatus (sub : Subscription) (channel : Channelable) :
    Except String SubscriberStatus :=
  match channel.status.subscribers.find?
      (fun s => decide (s.uid = sub.uid) && decide (s.observedGeneration = sub.generation)) with
  | some s =>
    Except.ok { uid := s.uid, observedGeneration := s.observedGeneration,
                ready := s.ready, message := s.message }
  | none => Except.error "subscription not present in channel subscribers list"

/-- checkChannelStatusForSubscription from the source: a missing entry marks
the channel condition Unknown with SubscriptionNotMarkedReadyByChannel and
returns a warning event; otherwise the three valued readiness is folded into
the channel condition. -/
def checkChannelStatusForSubscription (channel : Channelable) (sub : Subscription) :
    Subscription × Option REvent :=
  match getSubStatus sub channel with
  | Except.error _ =>
    (markChannelUnknown sub subscriptionNotMarkedReadyByChannel,
     some (REvent.evt EventType.warning subscriptionNotMarkedReadyByChannel))
  | Except.ok ss =>
    match ss.ready with
    | ReadyState.conditionTrue => (markChannelReady sub, none)
    | ReadyState.conditionUnknown =>
      (markChannelUnknown sub subscriptionNotMarkedReadyByChannel, none)
    | ReadyState.conditionFalse =>
      (markChannelFailed sub subscriptionNotMarkedReadyByChannel, none)

/-- trackAndFetchChannel from the source: optionally group resolve the
reference, register tracking and fetch through the duck typed lister (tracking
plus lister plus get folded into the trackAndFetch oracle). The second
component records the references actually fetched. -/
def trackAndFetchChannel (env : Env) (ref : KRef) :
    Except ChanErr FetchedObj × List KRef :=
  if env.featureKRefGroup then
    match env.resolveGroup ref with
    | Except.error e => (Except.error (ChanErr.groupErr e), [])
    | Except.ok r => (env.trackAndFetch r, [r])
  else (env.trackAndFetch ref, [ref])

/-- Conversion of the fetched object to the Channelable duck type (the type
assertion at the end of getChannel). -/
def convertChannelable (obj : FetchedObj) : Except ChanErr Channelable :=
  match obj.asChannelable with
  | some ch => Except.ok ch
  | none => Except.error ChanErr.notChannelable

/-- getChannel from the source: fetch the referenced object; when it is a
messaging Channel (the factory kind) register the extra tracker, fetch the
typed Channel, require it ready with a published backing channel pointer, and
fetch the backing channel; finally assert the Channelable capability. The
second component records every reference passed to the duck typed fetch. -/
def getChannel (env : Env) (sub : Subscription) :
    Except ChanErr Channelable × List KRef :=
  match trackAndFetchChannel env sub.spec.channel with
  | (Except.error e, log1) => (Except.error e, log1)
  | (Except.ok obj, log1) =>
    if obj.gvkGroup = v1ChannelGVKGroup ∧ obj.gvkKind = v1ChannelGVKKind then
      match env.trackReference with
      | Except.error e => (Except.error e, log1)
      | Except.ok _ =>
        match env.channelLister sub.spec.channel.name with
        | Except.error e => (Except.error e, log1)
        | Except.ok ch =>
          if ch.statusIsReady = false ∨ ch.statusChannel = none then
            (Except.error ChanErr.notReady, log1)
          else
            match ch.statusChannel with
            | none => (Except.error ChanErr.notReady, log1)
            | some b =>
              let statCh : KRef :=
                { kind := b.kind, namespace_ := sub.namespace_,
                  name := b.name, apiVersion := b.apiVersion }
              match trackAndFetchChannel env statCh with
              | (Except.error e, log2) => (Except.error e, log1 ++ log2)
              | (Except.ok obj2, log2) => (convertChannelable obj2, log1 ++ log2)
    else (convertChannelable obj, log1)

/-- ReconcileKind from the source: locate the channel (failure marks the
references condition Unknown with ChannelReferenceFailed and returns a warning
event), resolve the URIs, sync the channel, then fold the channel reported
status; each stage short circuits the rest. -/
def ReconcileKind (env : Env) (sub : Subscription) : Subscription × Option REvent :=
  match (getChannel env sub).fst with
  | Except.error _ =>
    (markReferencesResolvedUnknown sub channelReferenceFailed,
     some (REvent.evt EventType.warning channelReferenceFailed))
  | Except.ok channel =>
    let r1 := resolveSubscriptionURIs env sub channel
    match r1.snd with
    | some e => (r1.fst, some e)
    | none =>
      let r2 := syncChannel env channel r1.fst
      match r2.snd with
      | some e => (r2.fst, some e)
      | none => checkChannelStatusForSubscription channel r2.fst

/-- FinalizeKind from the source: a not found channel means nothing to clean
up and succeeds; any other location failure propagates as a raw error; when
the Subscription was actually added to the channel, run the channel sync
(which removes the entry, the deletion timestamp being set). -/
def FinalizeKind (env : Env) (sub : Subscription) : Subscription × Option REvent :=
  match (getChannel env sub).fst with
  | Except.error e =>
    if e = ChanErr.notFound then (sub, none) else (sub, some (REvent.rawErr e))
  | Except.ok channel =>
    if isAddedToChannel sub then syncChannel env channel sub
    else (sub, none)

/-- Uniqueness of subscriber uids within a Channel subscriber list. -/
def uidUnique (l : List SubscriberSpec) : Prop :=
  l.Pairwise (fun a b => a.uid ≠ b.uid)

/-! Concrete sample resources used to instantiate the theorems below. -/

/-- Sample channel reference. -/
def sampleKRef : KRef :=
  { kind := "InMemoryChannel", namespace_ := "ns", name := "chan",
    apiVersion := "messaging.knative.dev/v1" }

/-- Sample subscription: active (deletion timestamp unset), no destinations,
no delivery override, empty physical subscription. -/
def sampleSub : Subscription :=
  { name := "sub", namespace_ := "ns", uid := "uid-1", generation := 1,
    deletionTimestampIsZero := true,
    spec := { channel := sampleKRef, subscriber := none, reply := none, delivery := none },
    status := { physicalSubscription :=
                  { subscriberURI := none, replyURI := none, deadLetterSinkURI := none },
                referencesResolved := Cond.condTrue, channelReady := Cond.condTrue,
                addedToChannel := Cond.condTrue } }

/-- Sample channel with an empty subscriber list and no delivery default. -/
def sampleChannel : Channelable :=
  { name := "chan", spec := { subscribers := [], delivery := none },
    status := { subscribers := [], deadLetterSinkURI := none } }

/-- Sample environment: the fetch returns sampleChannel as a plain (non
factory) Channelable, resolution succeeds, patching succeeds. -/
def sampleEnv : Env :=
  { trackAndFetch := fun _ =>
      Except.ok { gvkGroup := "x.example.com", gvkKind := "OtherChannel",
                  asChannelable := some sampleChannel },
    trackReference := Except.ok (),
    channelLister := fun _ => Except.error ChanErr.notFound,
    featureKRefGroup := false,
    resolveGroup := Except.ok,
    resolveDest := fun _ => Except.ok "http://resolved.example.com",
    resourceClientErr := none,
    patchResult := Except.ok () }

/-- Subscriber entry matching sampleSub, as stored on the channel. -/
def sampleEntry : SubscriberSpec :=
  { uid := "uid-1", generation := 1, subscriberURI := none, replyURI := none,
    delivery := none }

/-- Channel holding exactly the entry of sampleSub. -/
def c1Channel : Channelable :=
  { name := "chan", spec := { subscribers := [sampleEntry], delivery := none },
    status := { subscribers := [], deadLetterSinkURI := none } }

/-- Deletion pending subscription whose status says it was added to the
channel. -/
def deletedSub : Subscription := { sampleSub with deletionTimestampIsZero := false }

/-- Environment where channel location succeeds (the channel is still in the
cache) but the patch call fails with not found: the channel disappeared
between locate and sync. -/
def c1Env : Env :=
  { sampleEnv with
    trackAndFetch := fun _ =>
      Except.ok { gvkGroup := "x.example.com", gvkKind := "OtherChannel",
                  asChannelable := some c1Channel },
    patchResult := Except.error PatchErr.notFound }

/-- Environment where the channel fetch itself fails with not found. -/
def c1EnvGone : Env :=
  { sampleEnv with trackAndFetch := fun _ => Except.error ChanErr.notFound }

/-- Factory kind typed Channel that is not reporting ready and has published
a backing channel pointer. -/
def c7TypedChannel : TypedChannel :=
  { statusIsReady := false,
    statusChannel := some { kind := "InMemoryChannel", namespace_ := "ns",
                            name := "backing", apiVersion := "messaging.knative.dev/v1" } }

/-- Environment whose fetch returns a factory kind Channel and whose typed
lister reports it not ready. -/
def c7Env : Env :=
  { sampleEnv with
    trackAndFetch := fun _ =>
      Except.ok { gvkGroup := v1ChannelGVKGroup, gvkKind := v1ChannelGVKKind,
                  asChannelable := none },
    channelLister := fun _ => Except.ok c7TypedChannel }

/-- Sample dead letter destination. -/
def dlsDest : Destination := { ref := none, uri := some "http://dls.example.com" }

/-- Subscription declaring its own dead letter destination. -/
def c4Sub : Subscription :=
  { sampleSub with spec := { sampleSub.spec with
      delivery := some { emptyDeliverySpec with deadLetterSink := some dlsDest } } }

/-- Environment whose destination resolver always fails. -/
def envResolveFail : Env :=
  { sampleEnv with resolveDest := fun _ => Except.error "resolve failed" }

/-- Channel declaring a default dead letter sink with the resolved URI
published in its status. -/
def c3ChanU : Channelable :=
  { sampleChannel with
    spec := { sampleChannel.spec with
      delivery := some { emptyDeliverySpec with deadLetterSink := some dlsDest } },
    status := { sampleChannel.status with
      deadLetterSinkURI := some "http://chan-dls.example.com" } }

/-- Channel declaring a default dead letter sink but with no resolved URI in
its status yet. -/
def c3ChanNoURI : Channelable :=
  { c3ChanU with status := { c3ChanU.status with deadLetterSinkURI := none } }

/-- Channel delivery default setting only the retry count. -/
def c2Default : DeliverySpec := { emptyDeliverySpec with retry := some 3 }

/-- Channel whose delivery default sets only the retry count. -/
def c2Channel : Channelable :=
  { sampleChannel with spec := { sampleChannel.spec with delivery := some c2Default } }

/-- Channel reported subscriber status entry matching sampleSub at its
current generation, ready. -/
def c6Entry : SubscriberStatus :=
  { uid := "uid-1", observedGeneration := 1, ready := ReadyState.conditionTrue, message := "" }

/-- Same entry at a stale generation. -/
def c6EntryStale : SubscriberStatus := { c6Entry with observedGeneration := 0 }

/-- Channel reporting the matching entry. -/
def c6Chan : Channelable :=
  { sampleChannel with status := { sampleChannel.status with subscribers := [c6Entry] } }

/-- Channel reporting only a stale generation entry. -/
def c6ChanStale : Channelable :=
  { sampleChannel with status := { sampleChannel.status with subscribers := [c6EntryStale] } }

/-! Helper lemmas about the subscriber list operations. -/

/-- Every uid in the result of addSubscriber is the subscription uid or an
existing uid. -/
theorem addSubscriber_uid_or_mem (sub : Subscription) (d : Option DeliverySpec)
    (l : List SubscriberSpec) :
    ∀ v ∈ addSubscriber sub d l, v.uid = sub.uid ∨ v.uid ∈ l.map SubscriberSpec.uid := by
  induction l with
  | nil =>
    intro v hv
    simp only [addSubscriber, List.mem_singleton] at hv
    subst hv
    exact Or.inl rfl
  | cons a rest ih =>
    intro v hv
    simp only [addSubscriber] at hv
    by_cases h : a.uid = sub.uid
    · rw [if_pos h] at hv
      rcases List.mem_cons.mp hv with h1 | h1
      · subst h1; exact Or.inl h
      · refine Or.inr ?_
        simp only [List.map_cons, List.mem_cons]
        exact Or.inr (List.mem_map.mpr ⟨v, h1, rfl⟩)
    · rw [if_neg h] at hv
      rcases List.mem_cons.mp hv with h1 | h1
      · subst h1; exact Or.inr (by simp)
      · rcases ih v h1 with h2 | h2
        · exact Or.inl h2
        · exact Or.inr (by simp [h2])

/-- addSubscriber preserves uid uniqueness. -/
theorem addSubscriber_uidUnique (sub : Subscription) (d : Option DeliverySpec)
    (l : List SubscriberSpec) (h : uidUnique l) : uidUnique (addSubscriber sub d l) := by
  induction l with
  | nil => simp [addSubscriber, uidUnique]
  | cons a rest ih =>
    rcases (List.pairwise_cons.mp h) with ⟨ha, hrest⟩
    by_cases hu : a.uid = sub.uid
    · simp only [addSubscriber, if_pos hu, uidUnique, List.pairwise_cons]
      exact ⟨fun b hb => by simpa [hu] using (hu ▸ ha b hb), hrest⟩
    · simp only [addSubscriber, if_neg hu, uidUnique, List.pairwise_cons]
      refine ⟨fun b hb => ?_, ih hrest⟩
      rcases addSubscriber_uid_or_mem sub d rest b hb with h1 | h1
      · intro hab; exact hu (hab.trans h1)
      · rcases List.mem_map.mp h1 with ⟨c, hc, hcu⟩
        intro hab; exact ha c hc (hab.trans hcu.symm)

/-- removeSubscriber yields a sublist. -/
theorem removeSubscriber_sublist (u : String) (l : List SubscriberSpec) :
    (removeSubscriber u l).Sublist l := by
  induction l with
  | nil => simp [removeSubscriber]
  | cons a rest ih =>
    by_cases h : a.uid = u
    · rw [removeSubscriber, if_pos h]
      exact List.sublist_cons_self a rest
    · rw [removeSubscriber, if_neg h]
      exact List.Sublist.cons₂ a ih

/-- removeSubscriber preserves uid uniqueness. -/
theorem removeSubscriber_uidUnique (u : String) (l : List SubscriberSpec)
    (h : uidUnique l) : uidUnique (removeSubscriber u l) :=
  h.sublist (removeSubscriber_sublist u l)

/-- addSubscriber appends exactly the desired entry when no entry carries the
subscription uid. -/
theorem addSubscriber_of_absent (sub : Subscription) (d : Option DeliverySpec)
    (l : List SubscriberSpec) (h : ∀ v ∈ l, v.uid ≠ sub.uid) :
    addSubscriber sub d l = l ++ [desiredEntry sub d] := by
  induction l with
  | nil => simp [addSubscriber]
  | cons a rest ih =>
    have ha : a.uid ≠ sub.uid := h a (by simp)
    simp only [addSubscriber, if_neg ha, List.cons_append, List.cons.injEq, true_and]
    exact ih (fun v hv => h v (by simp [hv]))

/-- removeSubscriber is a no op when no entry carries the uid. -/
theorem removeSubscriber_of_absent (u : String) (l : List SubscriberSpec)
    (h : ∀ v ∈ l, v.uid ≠ u) : removeSubscriber u l = l := by
  induction l with
  | nil => simp [removeSubscriber]
  | cons a rest ih =>
    have ha : a.uid ≠ u := h a (by simp)
    simp only [removeSubscriber, if_neg ha, List.cons.injEq, true_and]
    exact ih (fun v hv => h v (by simp [hv]))

/-- addSubscriber keeps the length when some entry carries the subscription
uid (the update happens in place). -/
theorem addSubscriber_length_of_present (sub : Subscription) (d : Option DeliverySpec)
    (l : List SubscriberSpec) (h : ∃ v ∈ l, v.uid = sub.uid) :
    (addSubscriber sub d l).length = l.length := by
  induction l with
  | nil => rcases h with ⟨v, hv, _⟩; simp at hv
  | cons a rest ih =>
    by_cases hu : a.uid = sub.uid
    · simp [addSubscriber, if_pos hu]
    · rcases h with ⟨v, hv, hvu⟩
      rcases List.mem_cons.mp hv with h1 | h1
      · exact absurd (h1 ▸ hvu) hu
      · simp only [addSubscriber, if_neg hu, List.length_cons]
        rw [ih ⟨v, h1, hvu⟩]

/-- Under uid uniqueness, removal leaves no entry with the removed uid. -/
theorem removeSubscriber_uid_gone (u : String) (l : List SubscriberSpec)
    (h : uidUnique l) : ∀ v ∈ removeSubscriber u l, v.uid ≠ u := by
  induction l with
  | nil => simp [removeSubscriber]
  | cons a rest ih =>
    rcases List.pairwise_cons.mp h with ⟨ha, hrest⟩
    by_cases hu : a.uid = u
    · simp only [removeSubscriber, if_pos hu]
      intro v hv
      intro hvu
      exact ha v hv (hu.trans hvu.symm)
    · simp only [removeSubscriber, if_neg hu]
      intro v hv
      rcases List.mem_cons.mp hv with h1 | h1
      · exact h1 ▸ hu
      · exact ih hrest v h1

/-- addSubscriber is idempotent. -/
theorem addSubscriber_idem (sub : Subscription) (d : Option DeliverySpec)
    (l : List SubscriberSpec) :
    addSubscriber sub d (addSubscriber sub d l) = addSubscriber sub d l := by
  induction l with
  | nil => simp [addSubscriber, desiredEntry]
  | cons a rest ih =>
    by_cases hu : a.uid = sub.uid
    · simp [addSubscriber, if_pos hu]
    · simp [addSubscriber, if_neg hu, ih]

/-- deliverySpec reads the channel only through its delivery default. -/
theorem deliverySpec_only_delivery (sub : Subscription) (c c' : Channelable)
    (h : c.spec.delivery = c'.spec.delivery) : deliverySpec sub c = deliverySpec sub c' := by
  unfold deliverySpec
  rw [h]

/-- Whenever the resolved dead letter sink URI is present on the subscription
status, the computed delivery policy exists and carries it. -/
theorem deliverySpec_deadLetter (sub : Subscription) (channel : Channelable) (U : String)
    (h : sub.status.physicalSubscription.deadLetterSinkURI = some U) :
    ∃ d, deliverySpec sub channel = some d ∧
      d.deadLetterSink = some { ref := none, uri := some U } := by
  simp only [deliverySpec, h]
  split
  next hcond =>
    split
    next hcd => exact absurd hcd hcond.2
    next chd hcd =>
      split
      next hr => exact ⟨_, rfl, rfl⟩
      next hr => exact ⟨_, rfl, rfl⟩
  next hcond =>
    split
    next sd hsd =>
      split
      next hr => exact ⟨_, rfl, rfl⟩
      next hr => exact ⟨_, rfl, rfl⟩
    next hsd => exact ⟨_, rfl, rfl⟩

/-- updateChannelAddSubscription is idempotent. -/
theorem updateChannelAddSubscription_idem (channel : Channelable) (sub : Subscription) :
    updateChannelAddSubscription (updateChannelAddSubscription channel sub) sub =
      updateChannelAddSubscription channel sub := by
  have hd : deliverySpec sub (updateChannelAddSubscription channel sub) =
      deliverySpec sub channel :=
    deliverySpec_only_delivery sub _ channel rfl
  cases channel with
  | mk n sp st =>
    cases sp with
    | mk subs del =>
      simp only [updateChannelAddSubscription] at hd ⊢
      rw [hd, addSubscriber_idem]

/-! Claim theorems. -/

/-- C8: for every Subscription whose subscriber destination (respectively
reply destination) is nil or semantically empty, resolution clears the
corresponding physicalSubscription URI to null and continues without error. -/
theorem c8_nil_or_empty_destination_clears_uri (env : Env) (sub : Subscription) :
    (isNilOrEmptyDestination sub.spec.subscriber = true →
      resolveSubscriber env sub = (setSubscriberURI sub none, none)) ∧
    (isNilOrEmptyDestination sub.spec.reply = true →
      resolveReply env sub = (setReplyURI sub none, none)) := by
  constructor
  · intro h
    simp [resolveSubscriber, h]
  · intro h
    simp [resolveReply, h]

/-- C8 witness: at the sample subscription, whose subscriber and reply are
nil, both URIs are cleared with no error. -/
theorem c8_nil_or_empty_destination_clears_uri_witness :
    resolveSubscriber sampleEnv sampleSub = (setSubscriberURI sampleSub none, none) ∧
    resolveReply sampleEnv sampleSub = (setReplyURI sampleSub none, none) :=
  ⟨(c8_nil_or_empty_destination_clears_uri sampleEnv sampleSub).1 rfl,
   (c8_nil_or_empty_destination_clears_uri sampleEnv sampleSub).2 rfl⟩

/-- C4: a dead letter destination declared by the Subscription itself is
resolved directly; a resolver failure fails the pass with
DeadLetterSinkResolveFailed and never falls back to the Channel sink (the
channel is arbitrary and the outcome does not depend on it); a success writes
the resolved URI to the status and returns. -/
theorem c4_sub_dls_failure_no_fallback (env : Env) (sub : Subscription)
    (channel : Channelable) (sd : DeliverySpec) (dls : Destination)
    (h1 : sub.spec.delivery = some sd) (h2 : sd.deadLetterSink = some dls) :
    (∀ msg, env.resolveDest dls = Except.error msg →
      resolveDeadLetterSink env sub channel =
        (markReferencesNotResolved (setDeadLetterSinkURI sub none) deadLetterSinkResolveFailed,
         some (REvent.evt EventType.warning deadLetterSinkResolveFailed))) ∧
    (∀ u, env.resolveDest dls = Except.ok u →
      resolveDeadLetterSink env sub channel = (setDeadLetterSinkURI sub (some u), none)) := by
  have hd : subDeclaredDLS sub = some dls := by simp [subDeclaredDLS, h1, h2]
  constructor
  · intro msg hres
    simp [resolveDeadLetterSink, hd, hres]
  · intro u hres
    simp [resolveDeadLetterSink, hd, hres]

/-- C4 witness: the subscription declaring its own dead letter sink, against
a channel that does declare (and has resolved) a default dead letter sink:
the failing resolver fails the pass, the succeeding resolver writes the URI. -/
theorem c4_sub_dls_failure_no_fallback_witness :
    resolveDeadLetterSink envResolveFail c4Sub c3ChanU =
      (markReferencesNotResolved (setDeadLetterSinkURI c4Sub none) deadLetterSinkResolveFailed,
       some (REvent.evt EventType.warning deadLetterSinkResolveFailed)) ∧
    resolveDeadLetterSink sampleEnv c4Sub c3ChanU =
      (setDeadLetterSinkURI c4Sub (some "http://resolved.example.com"), none) :=
  ⟨(c4_sub_dls_failure_no_fallback envResolveFail c4Sub c3ChanU _ dlsDest rfl rfl).1
      "resolve failed" rfl,
   (c4_sub_dls_failure_no_fallback sampleEnv c4Sub c3ChanU _ dlsDest rfl rfl).2
      "http://resolved.example.com" rfl⟩

/-- C10: for a Subscription not pending deletion, a successful channel sync
marks the Subscription added to the channel both when a patch was written and
when no patch was needed. -/
theorem c10_added_marked_on_both_paths (env : Env) (channel : Channelable)
    (sub : Subscription)
    (h1 : sub.deletionTimestampIsZero = true)
    (h2 : (syncPhysicalChannel env sub channel false).err = none) :
    (syncChannel env channel sub).fst.status.addedToChannel = Cond.condTrue := by
  simp only [syncChannel, h2]
  split
  · simp [markAddedToChannel, h1]
  · simp [markAddedToChannel, h1]

/-- C10 witness: at the sample pair a patch is written (the entry is absent)
and the subscription ends marked added to the channel; at the already
converged channel no patch is needed and it is marked as well. -/
theorem c10_added_marked_on_both_paths_witness :
    ((syncChannel sampleEnv sampleChannel sampleSub).fst.status.addedToChannel =
       Cond.condTrue ∧
     (syncPhysicalChannel sampleEnv sampleSub sampleChannel false).wrote = true) ∧
    ((syncChannel sampleEnv c1Channel sampleSub).fst.status.addedToChannel =
       Cond.condTrue ∧
     (syncPhysicalChannel sampleEnv sampleSub c1Channel false).wrote = false) :=
  ⟨⟨c10_added_marked_on_both_paths sampleEnv sampleChannel sampleSub rfl rfl, rfl⟩,
   ⟨c10_added_marked_on_both_paths sampleEnv c1Channel sampleSub rfl rfl, rfl⟩⟩

/-- C2: when the Subscription has no delivery override and the Channel
delivery default sets at least one of the five retry related fields, the
computed delivery policy exists and carries all five fields of the Channel
default, not only the ones that are set. -/
theorem c2_channel_default_copied_wholesale (sub : Subscription) (channel : Channelable)
    (chd : DeliverySpec)
    (hsub : sub.spec.delivery = none) (hch : channel.spec.delivery = some chd)
    (hany : chd.backoffPolicy ≠ none ∨ chd.backoffDelay ≠ none ∨ chd.retry ≠ none ∨
      chd.timeout ≠ none ∨ chd.retryAfterMax ≠ none) :
    ∃ d, deliverySpec sub channel = some d ∧
      d.backoffPolicy = chd.backoffPolicy ∧ d.backoffDelay = chd.backoffDelay ∧
      d.retry = chd.retry ∧ d.timeout = chd.timeout ∧
      d.retryAfterMax = chd.retryAfterMax := by
  have hcond : sub.spec.delivery = none ∧ (some chd : Option DeliverySpec) ≠ none := by
    exact ⟨hsub, by simp⟩
  have hr : chd.backoffDelay ≠ none ∨ chd.retry ≠ none ∨ chd.backoffPolicy ≠ none ∨
      chd.timeout ≠ none ∨ chd.retryAfterMax ≠ none := by tauto
  simp only [deliverySpec, hch]
  rw [if_pos hcond, if_pos hr]
  exact ⟨_, rfl, rfl, rfl, rfl, rfl, rfl⟩

/-- C2 witness: the channel default sets only the retry count; the synced
policy carries all five fields of the default. -/
theorem c2_channel_default_copied_wholesale_witness :
    ∃ d, deliverySpec sampleSub c2Channel = some d ∧
      d.backoffPolicy = c2Default.backoffPolicy ∧ d.backoffDelay = c2Default.backoffDelay ∧
      d.retry = c2Default.retry ∧ d.timeout = c2Default.timeout ∧
      d.retryAfterMax = c2Default.retryAfterMax :=
  c2_channel_default_copied_wholesale sampleSub c2Channel c2Default rfl rfl
    (Or.inr (Or.inr (Or.inl (by decide))))

/-- C6: status aggregation looks the subscription up in the channel reported
per subscriber statuses by uid and current generation; when no entry matches
(in particular when only stale generation entries exist) the channel condition
becomes Unknown with SubscriptionNotMarkedReadyByChannel and a warning event
is returned; when the matching entry is ready the channel condition becomes
ready with no event. -/
theorem c6_status_fold (sub : Subscription) (channel : Channelable) :
    ((∀ e ∈ channel.status.subscribers,
        ¬(e.uid = sub.uid ∧ e.observedGeneration = sub.generation)) →
      checkChannelStatusForSubscription channel sub =
        (markChannelUnknown sub subscriptionNotMarkedReadyByChannel,
         some (REvent.evt EventType.warning subscriptionNotMarkedReadyByChannel))) ∧
    (∀ e, channel.status.subscribers.find?
        (fun s => decide (s.uid = sub.uid) && decide (s.observedGeneration = sub.generation)) =
          some e →
      e.ready = ReadyState.conditionTrue →
      checkChannelStatusForSubscription channel sub = (markChannelReady sub, none)) := by
  constructor
  · intro h
    have hf : channel.status.subscribers.find?
        (fun s => decide (s.uid = sub.uid) && decide (s.observedGeneration = sub.generation)) =
          none := by
      apply List.find?_eq_none.mpr
      intro x hx
      simpa using h x hx
    simp [checkChannelStatusForSubscription, getSubStatus, hf]
  · intro e hf hr
    simp [checkChannelStatusForSubscription, getSubStatus, hf, hr]

/-- C6 witness: with the matching ready entry at generation 1 the channel
condition becomes ready; with only the generation 0 entry (subscription at
generation 1) the lookup misses and the condition becomes Unknown with
SubscriptionNotMarkedReadyByChannel. -/
theorem c6_status_fold_witness :
    checkChannelStatusForSubscription c6Chan sampleSub = (markChannelReady sampleSub, none) ∧
    checkChannelStatusForSubscription c6ChanStale sampleSub =
      (markChannelUnknown sampleSub subscriptionNotMarkedReadyByChannel,
       some (REvent.evt EventType.warning subscriptionNotMarkedReadyByChannel)) :=
  ⟨(c6_status_fold sampleSub c6Chan).2 c6Entry (by decide) rfl,
   (c6_status_fold sampleSub c6ChanStale).1 (by decide)⟩

/-- C3: with no dead letter sink on the Subscription and a Channel declaring
a default one, a resolved URI in the channel status is copied into the
physicalSubscription and the computed entry policy carries it; a missing
status URI fails with DeadLetterSinkResolveFailed; and with no declaration on
either side the status URI is cleared and resolution succeeds. -/
theorem c3_channel_dls_fallback (env : Env) (sub : Subscription) (channel : Channelable)
    (hsub : subDeclaredDLS sub = none) :
    (∀ chd U, channel.spec.delivery = some chd → chd.deadLetterSink ≠ none →
      channel.status.deadLetterSinkURI = some U →
      resolveDeadLetterSink env sub channel = (setDeadLetterSinkURI sub (some U), none) ∧
      ∃ d, deliverySpec (setDeadLetterSinkURI sub (some U)) channel = some d ∧
        d.deadLetterSink = some { ref := none, uri := some U }) ∧
    (∀ chd, channel.spec.delivery = some chd → chd.deadLetterSink ≠ none →
      channel.status.deadLetterSinkURI = none →
      resolveDeadLetterSink env sub channel =
        (markReferencesNotResolved (setDeadLetterSinkURI sub none) deadLetterSinkResolveFailed,
         some (REvent.evt EventType.warning deadLetterSinkResolveFailed))) ∧
    ((channel.spec.delivery = none ∨
        ∃ chd, channel.spec.delivery = some chd ∧ chd.deadLetterSink = none) →
      resolveDeadLetterSink env sub channel = (setDeadLetterSinkURI sub none, none)) := by
  refine ⟨?_, ?_, ?_⟩
  · intro chd U hch hdls hU
    constructor
    · simp [resolveDeadLetterSink, resolveDeadLetterSinkFromChannel, hsub, hch, hdls, hU]
    · exact deliverySpec_deadLetter (setDeadLetterSinkURI sub (some U)) channel U rfl
  · intro chd hch hdls hU
    simp [resolveDeadLetterSink, resolveDeadLetterSinkFromChannel, hsub, hch, hdls, hU]
  · intro h
    rcases h with h | ⟨chd, hch, hdls⟩
    · simp [resolveDeadLetterSink, resolveDeadLetterSinkFromChannel, hsub, h]
    · simp [resolveDeadLetterSink, resolveDeadLetterSinkFromChannel, hsub, hch, hdls]

/-- C3 witness: sample subscription without its own dead letter sink against
the channel with a resolved default sink, the channel without the resolved
URI, and the channel declaring nothing. -/
theorem c3_channel_dls_fallback_witness :
    (resolveDeadLetterSink sampleEnv sampleSub c3ChanU =
       (setDeadLetterSinkURI sampleSub (some "http://chan-dls.example.com"), none) ∧
     ∃ d, deliverySpec (setDeadLetterSinkURI sampleSub (some "http://chan-dls.example.com"))
         c3ChanU = some d ∧
       d.deadLetterSink = some { ref := none, uri := some "http://chan-dls.example.com" }) ∧
    resolveDeadLetterSink sampleEnv sampleSub c3ChanNoURI =
      (markReferencesNotResolved (setDeadLetterSinkURI sampleSub none)
         deadLetterSinkResolveFailed,
       some (REvent.evt EventType.warning deadLetterSinkResolveFailed)) ∧
    resolveDeadLetterSink sampleEnv sampleSub sampleChannel =
      (setDeadLetterSinkURI sampleSub none, none) :=
  ⟨(c3_channel_dls_fallback sampleEnv sampleSub c3ChanU rfl).1 _
      "http://chan-dls.example.com" rfl (by decide) rfl,
   (c3_channel_dls_fallback sampleEnv sampleSub c3ChanNoURI rfl).2.1 _ rfl (by decide) rfl,
   (c3_channel_dls_fallback sampleEnv sampleSub sampleChannel rfl).2.2 (Or.inl rfl)⟩

/-- C5: when applying the desired add, update or remove to a copy of the
Channel leaves it structurally unchanged, the merge patch is empty, no write
is issued and the sync reports no change; in particular reconciling an
already converged pair a second time (the channel resulting from the add of
an active subscription) issues zero writes. -/
theorem c5_empty_patch_no_write (env : Env) (channel : Channelable) (sub : Subscription) :
    ((if sub.deletionTimestampIsZero then updateChannelAddSubscription channel sub
      else updateChannelRemoveSubscription channel sub) = channel →
      patchSubscription env channel sub = { patched := false, err := none, wrote := false }) ∧
    (sub.deletionTimestampIsZero = true →
      patchSubscription env (updateChannelAddSubscription channel sub) sub =
        { patched := false, err := none, wrote := false }) := by
  constructor
  · intro h
    simp only [patchSubscription]
    rw [if_pos h]
  · intro h
    simp only [patchSubscription, h, if_true]
    rw [if_pos (updateChannelAddSubscription_idem channel sub)]

/-- C5 witness: removal of the sample subscription from the empty channel is
a no op hence no write, and re patching the channel produced by a first add
of the active sample subscription issues no write. -/
theorem c5_empty_patch_no_write_witness :
    patchSubscription sampleEnv sampleChannel deletedSub =
      { patched := false, err := none, wrote := false } ∧
    patchSubscription sampleEnv (updateChannelAddSubscription sampleChannel sampleSub)
        sampleSub = { patched := false, err := none, wrote := false } :=
  ⟨(c5_empty_patch_no_write sampleEnv sampleChannel deletedSub).1 (by decide),
   (c5_empty_patch_no_write sampleEnv sampleChannel sampleSub).2 rfl⟩

/-- C9: on a channel whose subscriber list carries at most one entry per uid,
both sync operations preserve the uniqueness; when no entry carries the
subscription uid the add appends exactly the desired entry and the removal is
a no op; when an entry carries it the add updates in place (the length is
unchanged); and after removal no entry carries the subscription uid. -/
theorem c9_uid_uniqueness_preserved (sub : Subscription) (channel : Channelable)
    (h : uidUnique channel.spec.subscribers) :
    uidUnique (updateChannelAddSubscription channel sub).spec.subscribers ∧
    uidUnique (updateChannelRemoveSubscription channel sub).spec.subscribers ∧
    ((∀ v ∈ channel.spec.subscribers, v.uid ≠ sub.uid) →
      (updateChannelAddSubscription channel sub).spec.subscribers =
        channel.spec.subscribers ++ [desiredEntry sub (deliverySpec sub channel)] ∧
      (updateChannelRemoveSubscription channel sub).spec.subscribers =
        channel.spec.subscribers) ∧
    ((∃ v ∈ channel.spec.subscribers, v.uid = sub.uid) →
      (updateChannelAddSubscription channel sub).spec.subscribers.length =
        channel.spec.subscribers.length) ∧
    (∀ v ∈ (updateChannelRemoveSubscription channel sub).spec.subscribers,
      v.uid ≠ sub.uid) := by
  refine ⟨?_, ?_, ?_, ?_, ?_⟩
  · exact addSubscriber_uidUnique sub _ channel.spec.subscribers h
  · exact removeSubscriber_uidUnique sub.uid channel.spec.subscribers h
  · intro habs
    exact ⟨addSubscriber_of_absent sub _ channel.spec.subscribers habs,
           removeSubscriber_of_absent sub.uid channel.spec.subscribers habs⟩
  · intro hpres
    exact addSubscriber_length_of_present sub _ channel.spec.subscribers hpres
  · exact removeSubscriber_uid_gone sub.uid channel.spec.subscribers h

/-- C9 witness: on the channel holding exactly the matching entry, the add
updates in place keeping uniqueness and length, and the removal leaves no
entry with the uid. -/
theorem c9_uid_uniqueness_preserved_witness :
    uidUnique (updateChannelAddSubscription c1Channel sampleSub).spec.subscribers ∧
    uidUnique (updateChannelRemoveSubscription c1Channel sampleSub).spec.subscribers ∧
    (updateChannelAddSubscription c1Channel sampleSub).spec.subscribers.length =
      c1Channel.spec.subscribers.length ∧
    (∀ v ∈ (updateChannelRemoveSubscription c1Channel sampleSub).spec.subscribers,
      v.uid ≠ sampleSub.uid) :=
  have h : uidUnique c1Channel.spec.subscribers := by
    simp [uidUnique, c1Channel]
  ⟨(c9_uid_uniqueness_preserved sampleSub c1Channel h).1,
   (c9_uid_uniqueness_preserved sampleSub c1Channel h).2.1,
   (c9_uid_uniqueness_preserved sampleSub c1Channel h).2.2.2.1
     ⟨sampleEntry, by simp [c1Channel], rfl⟩,
   (c9_uid_uniqueness_preserved sampleSub c1Channel h).2.2.2.2⟩

/-- C7: a channel reference pointing at a factory kind Channel that is not
reporting ready, or ready without a published backing channel pointer, fails
channel location with the not ready error without a second fetch (the fetch
log holds only the original reference, never the backing one), and the
reconcile pass surfaces ChannelReferenceFailed. -/
theorem c7_factory_not_ready_no_backing_fetch (env : Env) (sub : Subscription)
    (obj : FetchedObj) (ch : TypedChannel)
    (hflag : env.featureKRefGroup = false)
    (hfetch : env.trackAndFetch sub.spec.channel = Except.ok obj)
    (hg : obj.gvkGroup = v1ChannelGVKGroup) (hk : obj.gvkKind = v1ChannelGVKKind)
    (htrack : env.trackReference = Except.ok ())
    (hlist : env.channelLister sub.spec.channel.name = Except.ok ch)
    (hnr : ch.statusIsReady = false ∨ ch.statusChannel = none) :
    getChannel env sub = (Except.error ChanErr.notReady, [sub.spec.channel]) ∧
    ReconcileKind env sub =
      (markReferencesResolvedUnknown sub channelReferenceFailed,
       some (REvent.evt EventType.warning channelReferenceFailed)) := by
  have hgc : getChannel env sub = (Except.error ChanErr.notReady, [sub.spec.channel]) := by
    rcases hnr with hA | hB
    · simp [getChannel, trackAndFetchChannel, hflag, hfetch, hg, hk, htrack, hlist, hA]
    · simp [getChannel, trackAndFetchChannel, hflag, hfetch, hg, hk, htrack, hlist, hB]
  refine ⟨hgc, ?_⟩
  simp [ReconcileKind, hgc]

/-- C7 witness: the factory environment whose typed channel is not ready with
a published backing pointer; location fails with exactly one fetch and the
reconcile pass surfaces ChannelReferenceFailed. -/
theorem c7_factory_not_ready_no_backing_fetch_witness :
    getChannel c7Env sampleSub = (Except.error ChanErr.notReady, [sampleSub.spec.channel]) ∧
    ReconcileKind c7Env sampleSub =
      (markReferencesResolvedUnknown sampleSub channelReferenceFailed,
       some (REvent.evt EventType.warning channelReferenceFailed)) :=
  c7_factory_not_ready_no_backing_fetch c7Env sampleSub
    { gvkGroup := v1ChannelGVKGroup, gvkKind := v1ChannelGVKKind, asChannelable := none }
    c7TypedChannel rfl rfl rfl rfl rfl rfl (Or.inl rfl)

/-- C1 counterexample: a deletion pending Subscription whose status says it
was added to the channel, against an environment where the channel is still
located from the cache but the sync patch call fails with not found (the
channel disappeared between locate and sync): a patch write is issued and
fails with not found, yet finalization reports a PhysicalChannelSyncFailed
warning instead of treating the sync as already converged and succeeding. -/
theorem c1_finalize_patch_not_found_counterexample :
    deletedSub.deletionTimestampIsZero = false ∧
    (getChannel c1Env deletedSub).fst = Except.ok c1Channel ∧
    patchSubscription c1Env c1Channel deletedSub =
      { patched := false, err := some PatchErr.notFound, wrote := true } ∧
    FinalizeKind c1Env deletedSub =
      (markNotAddedToChannel deletedSub physicalChannelSyncFailed,
       some (REvent.evt EventType.warning physicalChannelSyncFailed)) :=
  ⟨rfl, rfl, rfl, rfl⟩

/-- C1 amended: the not found tolerance lives in syncPhysicalChannel and
applies only when its isDeleted flag is true; syncChannel always passes
false, so any patch failure, a not found one during finalization included, is
reported as a PhysicalChannelSyncFailed warning; channel disappearance is
tolerated during finalization only at the locate step, where a not found
getChannel makes FinalizeKind succeed with no error. -/
theorem c1_not_found_tolerated_only_at_locate :
    (∀ env channel sub e, (patchSubscription env channel sub).err = some e →
      syncChannel env channel sub =
        (markNotAddedToChannel sub physicalChannelSyncFailed,
         some (REvent.evt EventType.warning physicalChannelSyncFailed))) ∧
    (∀ env channel sub, (patchSubscription env channel sub).err = some PatchErr.notFound →
      (syncPhysicalChannel env sub channel true).err = none ∧
      (syncPhysicalChannel env sub channel true).patched = false) ∧
    (∀ env sub, (getChannel env sub).fst = Except.error ChanErr.notFound →
      FinalizeKind env sub = (sub, none)) := by
  refine ⟨?_, ?_, ?_⟩
  · intro env channel sub e h
    simp [syncChannel, syncPhysicalChannel, h]
  · intro env channel sub h
    simp [syncPhysicalChannel, h]
  · intro env sub h
    simp [FinalizeKind, h]

/-- C1 witness: the three parts of the amended claim at the concrete
finalization scenario: the failing patch is reported as
PhysicalChannelSyncFailed; the same failing patch would have been swallowed
had isDeleted been true; and a not found channel at locate time makes
finalization succeed. -/
theorem c1_not_found_tolerated_only_at_locate_witness :
    syncChannel c1Env c1Channel deletedSub =
      (markNotAddedToChannel deletedSub physicalChannelSyncFailed,
       some (REvent.evt EventType.warning physicalChannelSyncFailed)) ∧
    ((syncPhysicalChannel c1Env deletedSub c1Channel true).err = none ∧
     (syncPhysicalChannel c1Env deletedSub c1Channel true).patched = false) ∧
    FinalizeKind c1EnvGone deletedSub = (deletedSub, none) :=
  ⟨c1_not_found_tolerated_only_at_locate.1 c1Env c1Channel deletedSub PatchErr.notFound rfl,
   c1_not_found_tolerated_only_at_locate.2.1 c1Env c1Channel deletedSub rfl,
   c1_not_found_tolerated_only_at_locate.2.2 c1EnvGone deletedSub rfl⟩

end Eventing
